import Mathlib

/-!
# MedExtract — verification of the extraction-pipeline specification

A shallow embedding of the MedExtract client configuration logic and of the
spec-described extraction-engine steps, with theorems settling the frozen
claims about the natural-language specification.

The UI configuration page (`MedExtractUI`) holds the configuration state,
exports it with `saveConfiguration` as a JSON document and re-imports it with
`loadConfiguration`.  JavaScript field fallbacks are modelled explicitly:
`x || d` on an optional string treats both `undefined` and `""` as falsy,
while `x ?? d` only falls back on `undefined` (modelled by `Option.getD`).
-/

namespace MedExtract

/-- A few-shot example of the UI state (`FewShotExample` interface):
an input report, the expected extracted value, and the example tab it
belongs to (`simple`, `detailed` or `negative`). -/
structure FewShotExample where
  report : String
  extracted : String
  exampleKind : String
deriving DecidableEq, Repr

/-- The datapoint portion of the UI state (the `datapoint` state value of
`MedExtractUI`): name, instruction, retrieval query, default value, the
derived valid-values list and the few-shot examples. -/
structure Datapoint where
  name : String
  instruction : String
  query : String
  default_value : String
  valid_values : List String
  examples : List FewShotExample
deriving DecidableEq, Repr

/-- The configuration state of `MedExtractUI` that `saveConfiguration`
exports and `loadConfiguration` restores: the DatapointSpec fields, the
model (generation) settings, the RAG (retrieval) settings and the
execution settings. -/
structure ConfigState where
  textColumn : String
  groundTruthColumn : String
  datapoint : Datapoint
  llmModel : String
  temperature : ℚ
  topK : ℕ
  topP : ℚ
  numCtx : ℕ
  globalRAG : Bool
  chunkSize : ℕ
  chunkOverlap : ℕ
  retrieverType : String
  useReranker : Bool
  rerankerTopN : ℕ
  useFewShots : Bool
  enableCheckpoints : Bool
  saveFrequency : ℕ
  outputDirectory : String
deriving DecidableEq, Repr

/-- The `datapoint` object inside a configuration document.  Every field is
optional because a hand-written or legacy document may omit keys.  The new
export format does not write a `query` key here (the query lives in
`ragConfig`); the legacy format does. -/
structure DatapointDoc where
  name : Option String
  instruction : Option String
  query : Option String
  default_value : Option String
  valid_values : Option (List String)
  examples : Option (List FewShotExample)
deriving DecidableEq, Repr

/-- The `extractionTask` object of the current snapshot format. -/
structure ExtractionTaskDoc where
  textColumn : Option String
  groundTruthColumn : Option String
  datapoint : Option DatapointDoc
deriving DecidableEq, Repr

/-- The `modelConfig` object of the current snapshot format. -/
structure ModelConfigDoc where
  llmModel : Option String
  temperature : Option ℚ
  topK : Option ℕ
  topP : Option ℚ
  numCtx : Option ℕ
deriving DecidableEq, Repr

/-- The `ragConfig` object of the current snapshot format. -/
structure RagConfigDoc where
  enabled : Option Bool
  query : Option String
  chunkSize : Option ℕ
  chunkOverlap : Option ℕ
  retrieverType : Option String
  useReranker : Option Bool
  rerankerTopN : Option ℕ
deriving DecidableEq, Repr

/-- The `executionConfig` object of the current snapshot format.  The
exported `lastProcessedRow` key is not modelled: `loadConfiguration` never
reads it, so it cannot influence any restored state. -/
structure ExecutionConfigDoc where
  useFewShots : Option Bool
  enableCheckpoints : Option Bool
  saveFrequency : Option ℕ
  outputDirectory : Option String
deriving DecidableEq, Repr

/-- The flat `settings` object of the legacy configuration format. -/
structure SettingsDoc where
  textColumn : Option String
  groundTruthColumn : Option String
  datapoint : Option DatapointDoc
  llmModel : Option String
  temperature : Option ℚ
  topK : Option ℕ
  topP : Option ℚ
  numCtx : Option ℕ
  globalRAG : Option Bool
  chunkSize : Option ℕ
  chunkOverlap : Option ℕ
  retrieverType : Option String
  useReranker : Option Bool
  rerankerTopN : Option ℕ
  useFewShots : Option Bool
  enableCheckpoints : Option Bool
  saveFrequency : Option ℕ
  outputDirectory : Option String
deriving DecidableEq, Repr

/-- A parsed configuration document.  A current-format document carries an
`extractionTask` object (plus `modelConfig`, `ragConfig`,
`executionConfig`); a legacy document carries a flat `settings` object.
The `version`, `timestamp` and `sourceFile` keys are not modelled: on
the import path only `sourceFile` is used, for an informational alert,
and the other two are never read. -/
structure ConfigDoc where
  extractionTask : Option ExtractionTaskDoc
  modelConfig : Option ModelConfigDoc
  ragConfig : Option RagConfigDoc
  executionConfig : Option ExecutionConfigDoc
  settings : Option SettingsDoc
deriving DecidableEq, Repr

/-- JavaScript `x || d` for an optional string field: both a missing key
(`undefined`) and the empty string are falsy and fall back to `d`. -/
def jsOrString (v : Option String) (d : String) : String :=
  match v with
  | some s => if s = "" then d else s
  | none => d

/-- The `saveConfiguration` handler of `MedExtractUI`: builds the exported snapshot
document from the configuration state.  Note two normalisations performed
by the export code: the retrieval query is written under `ragConfig.query`
(not under the datapoint), and `ragConfig.useReranker` is written as
`globalRAG && useReranker`. -/
def saveConfiguration (s : ConfigState) : ConfigDoc where
  extractionTask := some
    { textColumn := some s.textColumn
      groundTruthColumn := some s.groundTruthColumn
      datapoint := some
        { name := some s.datapoint.name
          instruction := some s.datapoint.instruction
          query := none
          default_value := some s.datapoint.default_value
          valid_values := some s.datapoint.valid_values
          examples := some s.datapoint.examples } }
  modelConfig := some
    { llmModel := some s.llmModel
      temperature := some s.temperature
      topK := some s.topK
      topP := some s.topP
      numCtx := some s.numCtx }
  ragConfig := some
    { enabled := some s.globalRAG
      query := some s.datapoint.query
      chunkSize := some s.chunkSize
      chunkOverlap := some s.chunkOverlap
      retrieverType := some s.retrieverType
      useReranker := some (s.globalRAG && s.useReranker)
      rerankerTopN := some s.rerankerTopN }
  executionConfig := some
    { useFewShots := some s.useFewShots
      enableCheckpoints := some s.enableCheckpoints
      saveFrequency := some s.saveFrequency
      outputDirectory := some s.outputDirectory }
  settings := none

/-- The `loadConfiguration` handler of `MedExtractUI`, modelled on an already-parsed
document: applies the import's state setters to the current state and
reports whether the document was accepted.  A document with neither a
`settings` nor an `extractionTask` key is rejected ("Invalid configuration
file format") before any setter runs.  A current-format document is
handled by the `extractionTask` branch; otherwise the legacy `settings`
branch runs. -/
def loadConfiguration (doc : ConfigDoc) (s : ConfigState) : ConfigState × Bool :=
  if doc.settings = none ∧ doc.extractionTask = none then (s, false)
  else
    match doc.extractionTask with
    | some et =>
      let s1 := { s with
        textColumn := jsOrString et.textColumn ""
        groundTruthColumn := jsOrString et.groundTruthColumn "" }
      let s2 := match et.datapoint with
        | some dp => { s1 with
            datapoint :=
              { name := jsOrString dp.name ""
                instruction := jsOrString dp.instruction ""
                query := jsOrString (doc.ragConfig.bind (fun rc => rc.query)) ""
                default_value := jsOrString dp.default_value "NR"
                valid_values := dp.valid_values.getD []
                examples := dp.examples.getD [] } }
        | none => s1
      let s3 := match doc.modelConfig with
        | some mc => { s2 with
            llmModel := jsOrString mc.llmModel ""
            temperature := mc.temperature.getD 0.1
            topK := mc.topK.getD 40
            topP := mc.topP.getD 0.9
            numCtx := mc.numCtx.getD 4096 }
        | none => s2
      let s4 := match doc.ragConfig with
        | some rc => { s3 with
            globalRAG := rc.enabled.getD false
            chunkSize := rc.chunkSize.getD 800
            chunkOverlap := rc.chunkOverlap.getD 150
            retrieverType := jsOrString rc.retrieverType "hybrid"
            useReranker := rc.useReranker.getD false
            rerankerTopN := rc.rerankerTopN.getD 3 }
        | none => s3
      let s5 := match doc.executionConfig with
        | some ec => { s4 with
            useFewShots := ec.useFewShots.getD false
            enableCheckpoints := ec.enableCheckpoints.getD false
            saveFrequency := ec.saveFrequency.getD 10
            outputDirectory := jsOrString ec.outputDirectory "./output" }
        | none => s4
      (s5, true)
    | none =>
      match doc.settings with
      | some st =>
        let s1 := { s with
          textColumn := jsOrString st.textColumn ""
          groundTruthColumn := jsOrString st.groundTruthColumn "" }
        let s2 := match st.datapoint with
          | some dp => { s1 with
              datapoint :=
                { name := jsOrString dp.name ""
                  instruction := jsOrString dp.instruction ""
                  query := jsOrString dp.query ""
                  default_value := jsOrString dp.default_value "NR"
                  valid_values := dp.valid_values.getD []
                  examples := dp.examples.getD [] } }
          | none => s1
        let s3 := { s2 with
          llmModel := jsOrString st.llmModel ""
          temperature := st.temperature.getD 0.1
          topK := st.topK.getD 40
          topP := st.topP.getD 0.9
          numCtx := st.numCtx.getD 4096
          globalRAG := st.globalRAG.getD false
          chunkSize := st.chunkSize.getD 800
          chunkOverlap := st.chunkOverlap.getD 150
          retrieverType := jsOrString st.retrieverType "hybrid"
          useReranker := st.useReranker.getD false
          rerankerTopN := st.rerankerTopN.getD 3
          useFewShots := st.useFewShots.getD false
          enableCheckpoints := st.enableCheckpoints.getD false
          saveFrequency := st.saveFrequency.getD 10
          outputDirectory := jsOrString st.outputDirectory "./output" }
        (s3, true)
      | none => (s, false)

/-- On an optional string that is present, a JavaScript fallback to the
empty string is the identity. -/
theorem jsOrString_some_self (x : String) : jsOrString (some x) "" = x := by
  by_cases h : x = "" <;> simp [jsOrString, h]

/-- On a present, non-empty optional string the JavaScript fallback is the
identity whatever the default. -/
theorem jsOrString_some_of_ne (x d : String) (h : x ≠ "") :
    jsOrString (some x) d = x := by
  simp [jsOrString, h]

/-- A configuration state exercising the reranker normalisation: RAG is
disabled while the reranker flag is on. -/
def rerankOffState : ConfigState where
  textColumn := "report_text"
  groundTruthColumn := ""
  datapoint :=
    { name := "diagnosis"
      instruction := "Extract the diagnosis."
      query := ""
      default_value := "NR"
      valid_values := ["Positive", "Negative"]
      examples := [] }
  llmModel := "phi4:latest"
  temperature := 1 / 10
  topK := 40
  topP := 9 / 10
  numCtx := 4096
  globalRAG := false
  chunkSize := 800
  chunkOverlap := 150
  retrieverType := "hybrid"
  useReranker := true
  rerankerTopN := 3
  useFewShots := false
  enableCheckpoints := false
  saveFrequency := 10
  outputDirectory := "./output"

/-- The same configuration state with RAG enabled, on which the round trip
is exact. -/
def rerankOnState : ConfigState :=
  { rerankOffState with globalRAG := true }

/-- C1 (counterexample): exporting with `saveConfiguration` and
re-importing with `loadConfiguration` does not restore the configuration
state whose RAG is disabled but whose reranker flag is on: the export
writes the reranker flag as `globalRAG && useReranker`, so the restored
flag is `false` while the exported state's flag was `true`. -/
theorem save_load_roundtrip_cex :
    (loadConfiguration (saveConfiguration rerankOffState) rerankOffState).1 ≠
      rerankOffState := by
  intro h
  have h1 : (loadConfiguration (saveConfiguration rerankOffState)
      rerankOffState).1.useReranker = false := rfl
  rw [h] at h1
  exact absurd h1 (by decide)

/-- C1 (amended): exporting a configuration snapshot with
`saveConfiguration` and importing it back with `loadConfiguration`
restores every DatapointSpec, RetrievalConfig, GenerationConfig and
execution field identically — into any prior state — provided the default
value, retriever type and output directory are non-empty (the import
replaces empty ones with the fallbacks "NR", "hybrid" and "./output") and
the reranker flag is only set when RAG is enabled (the export normalises
it to `globalRAG && useReranker`). -/
theorem save_load_roundtrip (s s0 : ConfigState)
    (hdv : s.datapoint.default_value ≠ "")
    (hrt : s.retrieverType ≠ "")
    (hod : s.outputDirectory ≠ "")
    (hrr : s.globalRAG = true ∨ s.useReranker = false) :
    (loadConfiguration (saveConfiguration s) s0).1 = s := by
  obtain ⟨tc, gtc, ⟨dn, di, dq, dd, dv, de⟩, lm, te, tk, tp, nc, g, cs, co, rt,
    ur, rn, fs, ec, sf, od⟩ := s
  simp only [loadConfiguration, saveConfiguration, Option.bind_some,
    Option.getD_some, jsOrString_some_self] at *
  rcases hrr with hg | hu
  · subst hg
    simp [jsOrString_some_self, jsOrString_some_of_ne _ _ hdv,
      jsOrString_some_of_ne _ _ hrt, jsOrString_some_of_ne _ _ hod]
  · subst hu
    simp [jsOrString_some_self, jsOrString_some_of_ne _ _ hdv,
      jsOrString_some_of_ne _ _ hrt, jsOrString_some_of_ne _ _ hod]

/-- C1 (witness): the amended round trip evaluated on the concrete state
with RAG enabled. -/
theorem save_load_roundtrip_witness :
    (loadConfiguration (saveConfiguration rerankOnState) rerankOnState).1 =
      rerankOnState :=
  save_load_roundtrip rerankOnState rerankOnState (by decide) (by decide)
    (by decide) (Or.inl rfl)

/-- A document carrying neither an `extractionTask` nor a `settings`
object. -/
def unknownFormatDoc : ConfigDoc where
  extractionTask := none
  modelConfig := none
  ragConfig := none
  executionConfig := none
  settings := none

/-- A minimal legacy-format document: only the flat `settings` object is
present, itself with every key omitted. -/
def legacyDoc : ConfigDoc where
  extractionTask := none
  modelConfig := none
  ragConfig := none
  executionConfig := none
  settings := some
    { textColumn := none, groundTruthColumn := none, datapoint := none
      llmModel := none, temperature := none, topK := none, topP := none
      numCtx := none, globalRAG := none, chunkSize := none
      chunkOverlap := none, retrieverType := none, useReranker := none
      rerankerTopN := none, useFewShots := none, enableCheckpoints := none
      saveFrequency := none, outputDirectory := none }

/-- C8: `loadConfiguration` accepts a document that carries an
`extractionTask` object (current format) or a `settings` object (legacy
format); a document with neither key is rejected as invalid, and the
rejection is atomic — the returned state is exactly the state that was
current before the import, whatever it was. -/
theorem loadConfiguration_format (doc : ConfigDoc) (s : ConfigState) :
    (doc.extractionTask = none ∧ doc.settings = none →
      loadConfiguration doc s = (s, false)) ∧
    (doc.extractionTask ≠ none ∨ doc.settings ≠ none →
      (loadConfiguration doc s).2 = true) := by
  constructor
  · rintro ⟨het, hst⟩
    simp [loadConfiguration, het, hst]
  · intro h
    rcases het : doc.extractionTask with _ | et
    · rcases hst : doc.settings with _ | st
      · rw [het] at h
        rw [hst] at h
        simp at h
      · simp [loadConfiguration, het, hst]
    · simp [loadConfiguration, het]

/-- C8 (witness): the format check evaluated on concrete documents — the
empty-format document is rejected without touching the state, and the
minimal legacy document is accepted. -/
theorem loadConfiguration_format_witness :
    loadConfiguration unknownFormatDoc rerankOnState = (rerankOnState, false) ∧
    (loadConfiguration legacyDoc rerankOnState).2 = true :=
  ⟨(loadConfiguration_format unknownFormatDoc rerankOnState).1 ⟨rfl, rfl⟩,
   (loadConfiguration_format legacyDoc rerankOnState).2
     (Or.inr (by simp [legacyDoc]))⟩

/-- The extraction-session portion of the `MedExtractUI` state: the current
session id (`null` when no session was started) and the
`isExtracting` flag, which is set on start and cleared when a terminal
progress event arrives. -/
structure SessionState where
  sessionId : Option String
  isExtracting : Bool
deriving DecidableEq, Repr

/-- JavaScript truthiness of the `sessionId` state value: `null` and the
empty string are falsy. -/
def sessionTruthy : Option String → Bool
  | some sid => sid != ""
  | none => false

/-- The `stopExtraction` handler of `MedExtractUI`: it acts only when
`sessionId && isExtracting` holds, in which case it exports the current
configuration, issues the stop request to the backend and clears
`isExtracting`; otherwise it does nothing.  The returned boolean records
whether a stop request was issued. -/
def stopExtraction (s : SessionState) : SessionState × Bool :=
  if sessionTruthy s.sessionId && s.isExtracting then
    ({ s with isExtracting := false }, true)
  else
    (s, false)

/-- C4: invoking stop with no active session, or while no extraction is
running, is a no-op success — no stop request is issued and the state is
unchanged; and conversely a stop request is only ever issued when a
(non-empty) session id exists and extraction is running. -/
theorem stopExtraction_noop (s : SessionState)
    (h : s.sessionId = none ∨ s.isExtracting = false) :
    stopExtraction s = (s, false) ∧
    ∀ t : SessionState, (stopExtraction t).2 = true →
      sessionTruthy t.sessionId = true ∧ t.isExtracting = true := by
  constructor
  · rcases h with h | h <;> simp [stopExtraction, sessionTruthy, h]
  · intro t ht
    by_cases hc : sessionTruthy t.sessionId && t.isExtracting
    · exact ⟨(Bool.and_eq_true _ _ |>.mp hc).1, (Bool.and_eq_true _ _ |>.mp hc).2⟩
    · simp [stopExtraction, hc] at ht

/-- C4 (witness): stop evaluated on a state with no session while the
extracting flag is still set. -/
theorem stopExtraction_noop_witness :
    stopExtraction ⟨none, true⟩ = (⟨none, true⟩, false) ∧
    ∀ t : SessionState, (stopExtraction t).2 = true →
      sessionTruthy t.sessionId = true ∧ t.isExtracting = true :=
  stopExtraction_noop ⟨none, true⟩ (Or.inl rfl)

/-- A chat message of the prompt sequence sent to the backend. -/
structure ChatMessage where
  role : String
  content : String
deriving DecidableEq, Repr

/-- The `convertExamplesToFewShots` helper of `MedExtractUI`: each few-shot
example becomes a user message holding the example report followed by an
assistant message holding the expected extraction. -/
def convertExamplesToFewShots (examples : List FewShotExample) : List ChatMessage :=
  examples.flatMap fun ex =>
    [{ role := "user", content := ex.report },
     { role := "assistant", content := ex.extracted }]

/-- C5: converting an ordered list of few-shot examples yields exactly
twice as many messages, and for every index `i` the message at position
`2 * i` is a user message with the i-th example's report while the message
at position `2 * i + 1` is an assistant message with the i-th example's
extracted value — the configured order is preserved. -/
theorem convertExamplesToFewShots_spec (exs : List FewShotExample) :
    (convertExamplesToFewShots exs).length = 2 * exs.length ∧
    ∀ i ex, exs[i]? = some ex →
      (convertExamplesToFewShots exs)[2 * i]? =
        some { role := "user", content := ex.report } ∧
      (convertExamplesToFewShots exs)[2 * i + 1]? =
        some { role := "assistant", content := ex.extracted } := by
  constructor
  · induction exs with
    | nil => rfl
    | cons hd tl ih =>
      simp [convertExamplesToFewShots] at ih ⊢
      omega
  · induction exs with
    | nil => intro i ex h; simp at h
    | cons hd tl ih =>
      intro i ex h
      cases i with
      | zero =>
        simp at h
        subst h
        constructor <;> simp [convertExamplesToFewShots]
      | succ j =>
        rw [List.getElem?_cons_succ] at h
        have h1 := (ih j ex h).1
        have h2 := (ih j ex h).2
        have e1 : 2 * (j + 1) = 2 * j + 1 + 1 := by ring
        have e2 : 2 * (j + 1) + 1 = 2 * j + 1 + 1 + 1 := by ring
        constructor
        · rw [e1]
          simpa [convertExamplesToFewShots] using h1
        · rw [e2]
          simpa [convertExamplesToFewShots] using h2

/-- A concrete two-example list. -/
def twoExamples : List FewShotExample :=
  [⟨"Report A", "Positive", "simple"⟩, ⟨"Report B", "Negative", "simple"⟩]

/-- C5 (witness): the conversion evaluated on a concrete two-example
list. -/
theorem convertExamplesToFewShots_witness :
    (convertExamplesToFewShots twoExamples).length = 2 * twoExamples.length ∧
    (convertExamplesToFewShots twoExamples)[2]? =
      some { role := "user", content := "Report B" } ∧
    (convertExamplesToFewShots twoExamples)[3]? =
      some { role := "assistant", content := "Negative" } := by
  refine ⟨(convertExamplesToFewShots_spec twoExamples).1, ?_, ?_⟩
  · exact ((convertExamplesToFewShots_spec twoExamples).2 1
      ⟨"Report B", "Negative", "simple"⟩ rfl).1
  · exact ((convertExamplesToFewShots_spec twoExamples).2 1
      ⟨"Report B", "Negative", "simple"⟩ rfl).2

/-- The terminal job statuses of the data model: `completed`, `failed` and
`stopped`. -/
def isTerminalStatus (status : String) : Bool :=
  status == "completed" || status == "failed" || status == "stopped"

/-- The progress WebSocket `onmessage` handler installed by
`startExtraction`: it closes the socket exactly on a `completed` or a
`failed` event — a `stopped` event is not handled there. -/
def wsHandlerCloses (status : String) : Bool :=
  status == "completed" || status == "failed"

/-- The polling fallback loop of `startExtraction`: it clears its interval
(stops requesting progress) exactly on a `completed`, `failed` or
`stopped` event. -/
def pollingLoopStops (status : String) : Bool :=
  status == "completed" || status == "failed" || status == "stopped"

/-- C6 (counterexample): a progress event with the terminal status
`stopped` does not make the WebSocket handler close the push stream —
only the polling loop reacts to it — refuting the claim that every
terminal event closes the push subscription stream. -/
theorem wsHandlerCloses_cex :
    isTerminalStatus "stopped" = true ∧ wsHandlerCloses "stopped" = false := by
  decide

/-- C6 (amended): the client closes the push (WebSocket) stream exactly on
a `completed` or `failed` event, while the polling loop stops requesting
progress exactly on a terminal event (`completed`, `failed` or
`stopped`); in particular the push stream is never closed in response to
a non-terminal event, but a `stopped` event leaves it open. -/
theorem wsHandlerCloses_amended (status : String) :
    (wsHandlerCloses status = true ↔ status = "completed" ∨ status = "failed") ∧
    (pollingLoopStops status = true ↔ isTerminalStatus status = true) ∧
    (wsHandlerCloses status = true → isTerminalStatus status = true) := by
  refine ⟨?_, ?_, ?_⟩
  · simp [wsHandlerCloses]
  · simp [pollingLoopStops, isTerminalStatus]
  · simp only [wsHandlerCloses, isTerminalStatus, Bool.or_eq_true, beq_iff_eq]
    tauto

/-- C6 (witness): the amended statement evaluated at a `completed`
event. -/
theorem wsHandlerCloses_amended_witness :
    wsHandlerCloses "completed" = true ∧ isTerminalStatus "completed" = true :=
  ⟨(wsHandlerCloses_amended "completed").1.mpr (Or.inl rfl),
   (wsHandlerCloses_amended "completed").2.2
     ((wsHandlerCloses_amended "completed").1.mpr (Or.inl rfl))⟩

/-- A separator character of the valid-responses text: comma or
semicolon, matching the split pattern `[,;]` of the parsing effect. -/
def isValidValueSep (c : Char) : Bool :=
  c = ',' || c = ';'

/-- JavaScript `String.prototype.split` on a character class, over the
character list of the string: the result always has one more piece than
there are separator occurrences, so the empty string splits into one
empty piece. -/
def jsSplitChars (sep : Char → Bool) : List Char → List (List Char)
  | [] => [[]]
  | c :: rest =>
    if sep c then [] :: jsSplitChars sep rest
    else
      match jsSplitChars sep rest with
      | [] => [[c]]
      | piece :: pieces => (c :: piece) :: pieces

/-- The comma/semicolon split of the valid-responses text. -/
def jsSplit (text : String) : List String :=
  (jsSplitChars isValidValueSep text.data).map (fun p => String.mk p)

/-- JavaScript `String.prototype.trim`: drops leading and trailing
whitespace. -/
def jsTrim (s : String) : String :=
  String.mk (((s.data.dropWhile Char.isWhitespace).reverse.dropWhile
    Char.isWhitespace).reverse)

/-- The valid-responses parsing effect of `MedExtractUI` (the `useEffect`
on `validResponsesText`): a non-empty text is split on commas and
semicolons, each piece is trimmed and pieces of zero length are dropped;
an empty (falsy) text yields the empty list directly. -/
def parseValidResponses (text : String) : List String :=
  if text = "" then []
  else ((jsSplit text).map jsTrim).filter (fun v => v.length != 0)

/-- A string has length zero exactly when it is the empty string. -/
theorem string_length_eq_zero (s : String) : s.length = 0 ↔ s = "" := by
  constructor
  · intro h
    obtain ⟨data⟩ := s
    have hd : data = [] := List.length_eq_zero.mp h
    subst hd
    rfl
  · intro h
    subst h
    rfl

/-- C7: the derived valid-values list is the comma/semicolon split of the
text with every piece trimmed and empty pieces dropped — also when the
text is empty; it never contains an empty entry, it is a subsequence of
the trimmed pieces in their order of appearance, and it is the empty list
exactly when every piece of the text trims to nothing (the text contains
no non-whitespace piece). -/
theorem parseValidResponses_spec (text : String) :
    parseValidResponses text =
      ((jsSplit text).map jsTrim).filter (fun v => v.length != 0) ∧
    (∀ v ∈ parseValidResponses text, v ≠ "") ∧
    (parseValidResponses text).Sublist ((jsSplit text).map jsTrim) ∧
    (parseValidResponses text = [] ↔ ∀ p ∈ jsSplit text, jsTrim p = "") := by
  have hsplit : parseValidResponses text =
      ((jsSplit text).map jsTrim).filter (fun v => v.length != 0) := by
    by_cases h : text = ""
    · subst h
      rfl
    · simp [parseValidResponses, h]
  refine ⟨hsplit, ?_, ?_, ?_⟩
  · intro v hv
    rw [hsplit] at hv
    have := List.of_mem_filter hv
    simpa [string_length_eq_zero] using this
  · rw [hsplit]
    exact List.filter_sublist _
  · rw [hsplit, List.filter_eq_nil_iff]
    constructor
    · intro h p hp
      have := h (jsTrim p) (List.mem_map_of_mem jsTrim hp)
      simpa [string_length_eq_zero] using this
    · intro h v hv
      obtain ⟨p, hp, rfl⟩ := List.mem_map.mp hv
      simp [string_length_eq_zero, h p hp]

/-- C7 (witness): the parse evaluated on a concrete text. -/
theorem parseValidResponses_spec_witness :
    "Yes" ∈ parseValidResponses "Yes, No" ∧ "Yes" ≠ "" :=
  ⟨by decide, (parseValidResponses_spec "Yes, No").2.1 "Yes" (by decide)⟩

/-- The success-rate card of `JobDetailsDialog`: when at least one row was
processed it shows `Math.round(successful_rows / processed_rows * 100)`,
and `0` otherwise. -/
def successRate (successful_rows processed_rows : ℕ) : ℤ :=
  if 0 < processed_rows then
    round (((successful_rows : ℚ) / processed_rows) * 100)
  else 0

/-- C9: the displayed success rate is the rounded percentage only when the
processed-row count is positive and is `0` when it is zero, so the
computation never divides by zero; it is always a defined, non-negative
number, and it never exceeds 100 when the successful count is at most the
processed count. -/
theorem successRate_spec (s p : ℕ) :
    (p = 0 → successRate s p = 0) ∧
    (0 < p → successRate s p = round (((s : ℚ) / p) * 100)) ∧
    0 ≤ successRate s p ∧
    (s ≤ p → successRate s p ≤ 100) := by
  refine ⟨?_, ?_, ?_, ?_⟩
  · intro h
    simp [successRate, h]
  · intro h
    simp [successRate, h]
  · by_cases h : 0 < p
    · simp only [successRate, if_pos h]
      rw [round_eq]
      apply Int.le_floor.mpr
      push_cast
      positivity
    · simp [successRate, h]
  · intro hsp
    by_cases h : 0 < p
    · simp only [successRate, if_pos h]
      have h1 : (s : ℚ) / p ≤ 1 := by
        rw [div_le_one (by positivity)]
        exact_mod_cast hsp
      have hx : ((s : ℚ) / p) * 100 ≤ 100 := by
        calc ((s : ℚ) / p) * 100 ≤ 1 * 100 :=
              mul_le_mul_of_nonneg_right h1 (by norm_num)
          _ = 100 := by norm_num
      rw [round_eq]
      have hmono : ((s : ℚ) / p) * 100 + 1 / 2 ≤ (100 : ℚ) + 1 / 2 := by
        linarith
      calc ⌊((s : ℚ) / p) * 100 + 1 / 2⌋ ≤ ⌊(100 : ℚ) + 1 / 2⌋ :=
            Int.floor_mono hmono
        _ = 100 := by
          rw [show ((100 : ℚ) + 1 / 2) = ((100 : ℤ) : ℚ) + 1 / 2 by norm_num,
            Int.floor_int_add]
          norm_num [Int.floor_eq_zero_iff]
    · norm_num [successRate, h]

/-- C9 (witness): the success rate evaluated at one successful row out of
two processed rows. -/
theorem successRate_spec_witness :
    successRate 1 2 = round (((1 : ℚ) / 2) * 100) ∧
    0 ≤ successRate 1 2 ∧ successRate 1 2 ≤ 100 :=
  ⟨(successRate_spec 1 2).2.1 (by decide),
   (successRate_spec 1 2).2.2.1,
   (successRate_spec 1 2).2.2.2 (by decide)⟩

/-- The ground-truth column assembled by `startExtraction` in the
simplified UI: `(groundTruthColumn && groundTruthColumn !== "_none") ?
groundTruthColumn : undefined`. -/
def startExtractionGroundTruth (groundTruthColumn : String) : Option String :=
  if groundTruthColumn ≠ "" ∧ groundTruthColumn ≠ "_none" then
    some groundTruthColumn
  else none

/-- The ground-truth column assembled by `handleSubmit` of
`CreateJobDialog`: `groundTruthColumn || undefined` — this client has no
`_none` sentinel (its None option is the empty string). -/
def jobRequestGroundTruth (groundTruthColumn : String) : Option String :=
  if groundTruthColumn = "" then none else some groundTruthColumn

/-- C10 (counterexample): the job request assembled by `handleSubmit`
does not treat the sentinel value `_none` specially — a selected value
`_none` is sent as the ground-truth column rather than omitted, refuting
the claim for that client. -/
theorem jobRequestGroundTruth_cex :
    jobRequestGroundTruth "_none" = some "_none" := by
  decide

/-- C10 (amended): the simplified client's `startExtraction` omits the
ground-truth column exactly when the selected value is empty or the
`_none` sentinel; the job-dialog client's `handleSubmit` omits it exactly
when the selected value is empty (that client's None option uses the
empty string, not `_none`); otherwise each sends the selected column
name. -/
theorem groundTruthColumn_amended (g : String) :
    (startExtractionGroundTruth g = none ↔ g = "" ∨ g = "_none") ∧
    (startExtractionGroundTruth g ≠ none → startExtractionGroundTruth g = some g) ∧
    (jobRequestGroundTruth g = none ↔ g = "") ∧
    (jobRequestGroundTruth g ≠ none → jobRequestGroundTruth g = some g) := by
  refine ⟨?_, ?_, ?_, ?_⟩
  · by_cases h1 : g = ""
    · simp [startExtractionGroundTruth, h1]
    · by_cases h2 : g = "_none" <;> simp [startExtractionGroundTruth, h1, h2]
  · intro h
    by_cases h1 : g ≠ "" ∧ g ≠ "_none"
    · simp [startExtractionGroundTruth, h1]
    · simp [startExtractionGroundTruth, h1] at h
  · by_cases h1 : g = "" <;> simp [jobRequestGroundTruth, h1]
  · intro h
    by_cases h1 : g = ""
    · simp [jobRequestGroundTruth, h1] at h
    · simp [jobRequestGroundTruth, h1]

/-- C10 (witness): the amended statement evaluated at the sentinel and at
a real column name. -/
theorem groundTruthColumn_amended_witness :
    startExtractionGroundTruth "_none" = none ∧
    jobRequestGroundTruth "label" = some "label" :=
  ⟨(groundTruthColumn_amended "_none").1.mpr (Or.inr rfl),
   (groundTruthColumn_amended "label").2.2.2 (by decide)⟩

/-- Status of one datapoint extraction in a RowResult. -/
inductive DatapointStatus where
  | success
  | default_used
  | failed
deriving DecidableEq, Repr

/-- Modelled from the spec: the per-datapoint constraint-enforcement step
of the Extraction Engine (spec §4.4, steps 4-5) is backend code that is
not present under src/.  If `valid_values` is non-empty and the parsed
candidate is not a case-insensitive exact match to any entry, the
candidate is replaced with the configured default and the status is
`default_used`; a matching candidate is recorded as the matched entry
with status `success` (spec §8, Scenario A records "positive" as
"Positive"); an empty `valid_values` list leaves the candidate
unconstrained. -/
def enforceValidValues (valid_values : List String) (default_value : String)
    (candidate : String) : String × DatapointStatus :=
  if valid_values.isEmpty then (candidate, .success)
  else
    match valid_values.find? (fun v => v.toLower == candidate.toLower) with
    | some v => (v, .success)
    | none => (default_value, .default_used)

/-- C2: with a non-empty `valid_values` list, the recorded extracted value
is either one of the `valid_values` entries (hence a case-insensitive
exact match to an entry) or the configured default; and a candidate that
matches no entry case-insensitively is replaced by the default with
status `default_used` — no arbitrary free-text value is recorded. -/
theorem enforceValidValues_constrained (valid_values : List String)
    (default_value candidate : String) (hvv : valid_values ≠ []) :
    ((∃ v ∈ valid_values,
        (enforceValidValues valid_values default_value candidate).1 = v) ∨
      (enforceValidValues valid_values default_value candidate).1 =
        default_value) ∧
    ((∀ v ∈ valid_values, v.toLower ≠ candidate.toLower) →
      enforceValidValues valid_values default_value candidate =
        (default_value, DatapointStatus.default_used)) := by
  have hne : valid_values.isEmpty = false := by
    simpa [List.isEmpty_iff] using hvv
  constructor
  · rcases hfind : valid_values.find?
        (fun v => v.toLower == candidate.toLower) with _ | v
    · right
      simp [enforceValidValues, hne, hfind]
    · left
      refine ⟨v, List.mem_of_find?_eq_some hfind, ?_⟩
      simp [enforceValidValues, hne, hfind]
  · intro hall
    have hfind : valid_values.find?
        (fun v => v.toLower == candidate.toLower) = none := by
      rw [List.find?_eq_none]
      intro v hv
      simpa using hall v hv
    simp [enforceValidValues, hne, hfind]

/-- C2 (witness): the enforcement applied to the closed value set of the
spec's Scenario A. -/
theorem enforceValidValues_constrained_witness :
    ((∃ v ∈ ["Positive", "Negative"],
        (enforceValidValues ["Positive", "Negative"] "Unknown" "positive").1 = v) ∨
      (enforceValidValues ["Positive", "Negative"] "Unknown" "positive").1 =
        "Unknown") ∧
    ((∀ v ∈ ["Positive", "Negative"],
        v.toLower ≠ "positive".toLower) →
      enforceValidValues ["Positive", "Negative"] "Unknown" "positive" =
        ("Unknown", DatapointStatus.default_used)) :=
  enforceValidValues_constrained ["Positive", "Negative"] "Unknown" "positive"
    (by decide)

/-- Reason a job submission is rejected as `InvalidConfig`. -/
inductive InvalidConfigReason where
  | overlapGeChunkSize
  | rerankTopNGtTopK
deriving DecidableEq, Repr

/-- Modelled from the spec: the retrieval parameters checked at
job-creation time.  The backend that validates them is not present under
src/; the spec (§3, §7) requires chunk size > overlap ≥ 0 and reranker
top-n ≤ top-k. -/
structure RetrievalConfigSpec where
  chunkSize : ℕ
  chunkOverlap : ℕ
  topK : ℕ
  rerankerTopN : ℕ
deriving DecidableEq, Repr

/-- Modelled from the spec: job-creation validation of a RetrievalConfig
(spec §7, `InvalidConfig`): overlap ≥ chunk size, or rerank top-n >
top-k, is rejected; anything else passes. -/
def validateRetrievalConfig (rc : RetrievalConfigSpec) :
    Option InvalidConfigReason :=
  if rc.chunkSize ≤ rc.chunkOverlap then some .overlapGeChunkSize
  else if rc.topK < rc.rerankerTopN then some .rerankTopNGtTopK
  else none

/-- Modelled from the spec: a job submission runs the configuration check
first and only then processes rows; the result reports the reason when
the submission is rejected before any row processing, and the number of
processed rows otherwise. -/
def submitJob (rc : RetrievalConfigSpec) (rows : List String) :
    Except InvalidConfigReason ℕ :=
  match validateRetrievalConfig rc with
  | some r => .error r
  | none => .ok rows.length

/-- C3: a submission whose overlap is at least the chunk size is rejected
with `InvalidConfig` before any row is processed, as is one whose rerank
top-n exceeds top-k; a submission with overlap < chunk size is never
rejected for the overlap reason, and one also satisfying top-n ≤ top-k is
accepted and processes every row. -/
theorem invalidConfig_rejected (rc : RetrievalConfigSpec) (rows : List String) :
    (rc.chunkSize ≤ rc.chunkOverlap →
      submitJob rc rows = .error .overlapGeChunkSize) ∧
    (rc.chunkOverlap < rc.chunkSize → rc.topK < rc.rerankerTopN →
      submitJob rc rows = .error .rerankTopNGtTopK) ∧
    (rc.chunkOverlap < rc.chunkSize →
      validateRetrievalConfig rc ≠ some .overlapGeChunkSize) ∧
    (rc.chunkOverlap < rc.chunkSize → rc.rerankerTopN ≤ rc.topK →
      submitJob rc rows = .ok rows.length) := by
  refine ⟨?_, ?_, ?_, ?_⟩
  · intro h
    simp [submitJob, validateRetrievalConfig, h]
  · intro h1 h2
    have hns : ¬ rc.chunkSize ≤ rc.chunkOverlap := by omega
    simp [submitJob, validateRetrievalConfig, hns, h2]
  · intro h1
    have hns : ¬ rc.chunkSize ≤ rc.chunkOverlap := by omega
    by_cases h2 : rc.topK < rc.rerankerTopN <;>
      simp [validateRetrievalConfig, hns, h2]
  · intro h1 h2
    have hns : ¬ rc.chunkSize ≤ rc.chunkOverlap := by omega
    have hnr : ¬ rc.topK < rc.rerankerTopN := by omega
    simp [submitJob, validateRetrievalConfig, hns, hnr]

/-- C3 (witness): a submission with overlap equal to chunk size is
rejected, one with the UI defaults (800/150, top-n 3 ≤ top-k 40) is
accepted and processes its row. -/
theorem invalidConfig_rejected_witness :
    submitJob ⟨800, 800, 40, 3⟩ ["report row"] =
      .error .overlapGeChunkSize ∧
    validateRetrievalConfig ⟨800, 150, 40, 3⟩ ≠
      some .overlapGeChunkSize ∧
    submitJob ⟨800, 150, 40, 3⟩ ["report row"] = .ok 1 :=
  ⟨(invalidConfig_rejected ⟨800, 800, 40, 3⟩ ["report row"]).1 (by decide),
   (invalidConfig_rejected ⟨800, 150, 40, 3⟩ ["report row"]).2.2.1 (by decide),
   (invalidConfig_rejected ⟨800, 150, 40, 3⟩ ["report row"]).2.2.2 (by decide)
     (by decide)⟩

end MedExtract

